import Mathlib

/-
Verification of the data-transformation pipeline of a customer-support
analytics dashboard (src/utils.py).  Tables are embedded shallowly:

  * a cell is null (NaN/NaT/NA), a string, a rational number, or a
    timestamp measured in whole seconds since an arbitrary epoch;
  * a row is an association list from column names to cells;
  * a table is its list of column names plus its list of rows.

The pandas scalar coercions are embedded abstractly: a raw value that
pandas would parse as a timestamp is represented by the `time`
constructor, one it would parse as a number by `num`, and the coercion
functions map every other cell to null, mirroring errors="coerce".
Operations that can raise a Python exception (indexing a missing
column raises KeyError) return an Option, with `none` for the raised
exception.
-/

namespace CSA

inductive Cell where
  | null : Cell
  | str : String → Cell
  | num : Rat → Cell
  | time : Int → Cell
deriving DecidableEq, Repr

/-- A row: association list from column name to cell value. -/
abbrev Row : Type := List (String × Cell)

/-- Read a cell from a row; a column the row does not carry reads as null
(rows of a table always carry the table's columns, so within a table this
matches pandas NaN for missing data). -/
def getCell : Row → String → Cell
  | [], _ => Cell.null
  | (k, v) :: r, c => if k = c then v else getCell r c

/-- Overwrite (or append) one cell of a row. -/
def setCell : Row → String → Cell → Row
  | [], c, v => [(c, v)]
  | (k, w) :: r, c, v =>
      if k = c then (k, v) :: r else (k, w) :: setCell r c v

structure Table where
  cols : List String
  rows : List Row
deriving DecidableEq, Repr

/-- Column assignment `df[c] = f(row)`: overwrites the column when present,
appends it otherwise, exactly as a pandas column assignment does. -/
def mapCol (t : Table) (c : String) (f : Row → Cell) : Table :=
  { cols := if c ∈ t.cols then t.cols else t.cols ++ [c],
    rows := t.rows.map (fun r => setCell r c (f r)) }

/-- pd.to_numeric(·, errors="coerce"): numeric values pass through,
anything unparsable becomes null. -/
def toNumeric : Cell → Cell
  | Cell.num q => Cell.num q
  | _ => Cell.null

/-- pd.to_datetime(·, errors="coerce"): parseable timestamps pass
through, anything unparsable becomes null (NaT). -/
def toDatetime : Cell → Cell
  | Cell.time t => Cell.time t
  | _ => Cell.null

/-- timedelta.dt.total_seconds()/3600: the difference of two timestamps in
fractional hours; null when either operand is NaT. -/
def diffHours : Cell → Cell → Cell
  | Cell.time a, Cell.time b => Cell.num (((a - b : Int) : Rat) / 3600)
  | _, _ => Cell.null

/-- df.loc[col <= 0] = pd.NA: nulls out non-positive values; NaN <= 0 is
False in pandas, so null stays null. -/
def guardPos : Cell → Cell
  | Cell.num q => if q ≤ 0 then Cell.null else Cell.num q
  | c => c

/-- Step 1 of clean_data: coerce the satisfaction rating to numeric.  The
source reads the column unconditionally, so callers must check presence. -/
def coerceSatisfaction (t : Table) : Table :=
  mapCol t "Customer Satisfaction Rating"
    (fun r => toNumeric (getCell r "Customer Satisfaction Rating"))

/-- Step 2 of clean_data: parse the purchase date, guarded by column
presence. -/
def parsePurchaseDate (t : Table) : Table :=
  if "Date of Purchase" ∈ t.cols then
    mapCol t "Date of Purchase" (fun r => toDatetime (getCell r "Date of Purchase"))
  else t

/-- Step 3 of clean_data: parse the first-response timestamp, guarded by
column presence. -/
def parseFirstResponse (t : Table) : Table :=
  if "First Response Time" ∈ t.cols then
    mapCol t "First Response Time" (fun r => toDatetime (getCell r "First Response Time"))
  else t

/-- Step 4 of clean_data: derive the resolution duration.  Adds the parsed
timestamp column, then either overwrites "Time to Resolution" with the
guarded difference in hours (when a first-response column exists) or with
null (when it does not). -/
def deriveResolution (t : Table) : Table :=
  if "Time to Resolution" ∈ t.cols then
    let ta := mapCol t "Time to Resolution Timestamp"
      (fun r => toDatetime (getCell r "Time to Resolution"))
    if "First Response Time" ∈ ta.cols then
      let tb := mapCol ta "Time to Resolution"
        (fun r => diffHours (getCell r "Time to Resolution Timestamp")
                            (getCell r "First Response Time"))
      mapCol tb "Time to Resolution"
        (fun r => guardPos (getCell r "Time to Resolution"))
    else
      mapCol ta "Time to Resolution" (fun _ => Cell.null)
  else t

/-- clean_data from src/utils.py.  The first step reads
"Customer Satisfaction Rating" without a presence guard, so a table
lacking that column raises KeyError, modelled as none. -/
def clean_data (df : Table) : Option Table :=
  if "Customer Satisfaction Rating" ∈ df.cols then
    some (deriveResolution (parseFirstResponse (parsePurchaseDate (coerceSatisfaction df))))
  else none

/-- The filter selections handed to filter_data: an optional inclusive
date range plus four optional allow-lists. -/
structure FilterSpec where
  date_range : Option (Int × Int) := none
  priorities : Option (List String) := none
  channels : Option (List String) := none
  statuses : Option (List String) := none
  products : Option (List String) := none

/-- Python truthiness of `lst and len(lst) > 0`: active only for a present,
non-empty list. -/
def listActive : Option (List String) → Bool
  | some (_ :: _) => true
  | _ => false

/-- Series.isin(values): cell membership in an allow-list; null is never
in a list of strings. -/
def isinList (c : Cell) (l : List String) : Bool :=
  match c with
  | Cell.str s => s ∈ l
  | _ => false

/-- One categorical allow-list dimension of filter_data.  When the list is
active the source indexes the column without a presence guard, so a
missing column raises KeyError (none). -/
def catFilter (t : Table) (col : String) (l : Option (List String)) : Option Table :=
  match l with
  | some (v :: vs) =>
      if col ∈ t.cols then
        some { t with rows := t.rows.filter (fun r => isinList (getCell r col) (v :: vs)) }
      else none
  | _ => some t

/-- The date-range comparison (col >= start) & (col <= end): a NaT cell
compares False on both sides, so null purchase dates are excluded. -/
def dateInRange (c : Cell) (s e : Int) : Bool :=
  match c with
  | Cell.time t => decide (s ≤ t) && decide (t ≤ e)
  | _ => false

/-- filter_data from src/utils.py: date range first (guarded by column
presence), then the four categorical allow-lists (unguarded). -/
def filter_data (df : Table) (fs : FilterSpec) : Option Table :=
  let t0 := match fs.date_range with
    | some (s, e) =>
        if "Date of Purchase" ∈ df.cols then
          { df with rows := df.rows.filter (fun r => dateInRange (getCell r "Date of Purchase") s e) }
        else df
    | none => df
  (catFilter t0 "Ticket Priority" fs.priorities).bind fun t1 =>
  (catFilter t1 "Ticket Channel" fs.channels).bind fun t2 =>
  (catFilter t2 "Ticket Status" fs.statuses).bind fun t3 =>
  catFilter t3 "Product Purchased" fs.products

structure KPISet where
  total_tickets : Nat
  avg_satisfaction : Option Rat
  avg_resolution_time : Option Rat
  open_tickets : Nat
  closed_tickets : Nat
deriving DecidableEq, Repr

/-- Series.mean(): the mean of the numeric cells of a column, NaN (none)
when there are none.  Non-numeric non-null cells do not occur in the
columns this is applied to. -/
def meanCol (t : Table) (c : String) : Option Rat :=
  let l := t.rows.filterMap (fun r =>
    match getCell r c with
    | Cell.num q => some q
    | _ => none)
  if l.isEmpty then none else some (l.sum / (l.length : Rat))

/-- Whether a row's "Ticket Status" cell equals the exact string s. -/
def isStatus (s : String) (r : Row) : Bool :=
  decide (getCell r "Ticket Status" = Cell.str s)

/-- len(df[df["Ticket Status"] == s]) if s in df["Ticket Status"].values
else 0: the guard is vacuous for the value but kept from the source. -/
def statusCount (t : Table) (s : String) : Nat :=
  if t.rows.any (isStatus s) then (t.rows.filter (isStatus s)).length else 0

/-- calculate_kpis from src/utils.py; indexing any of the three columns
on a table lacking it raises KeyError (none). -/
def calculate_kpis (df : Table) : Option KPISet :=
  if "Customer Satisfaction Rating" ∈ df.cols ∧ "Time to Resolution" ∈ df.cols ∧
     "Ticket Status" ∈ df.cols then
    some { total_tickets := df.rows.length,
           avg_satisfaction := meanCol df "Customer Satisfaction Rating",
           avg_resolution_time := meanCol df "Time to Resolution",
           open_tickets := statusCount df "Open",
           closed_tickets := statusCount df "Closed" }
  else none

/-- Add one element to the group keyed by k, keeping existing group order. -/
def insertGroup (k : Cell) (a : α) : List (Cell × List α) → List (Cell × List α)
  | [] => [(k, [a])]
  | (k', as) :: gs =>
      if k' = k then (k', as ++ [a]) :: gs else (k', as) :: insertGroup k a gs

/-- groupby(·, dropna=False): partition a list by key, null being an
ordinary key; every element lands in exactly one group. -/
def groupByKey (f : α → Cell) : List α → List (Cell × List α)
  | [] => []
  | a :: as => insertGroup (f a) a (groupByKey f as)

/-- The numeric value of a cell, for means taken below a not-null filter;
the columns aggregated this way hold only numeric or null cells. -/
def cellRat : Cell → Rat
  | Cell.num q => q
  | _ => 0

structure GroupRow where
  key : Cell
  mean : Rat
  count : Nat
deriving DecidableEq, Repr

structure VolRow where
  key : Cell
  count : Nat
deriving DecidableEq, Repr

/-- Descending order on group means, the sort key of
get_satisfaction_by_group. -/
def meanGE (a b : GroupRow) : Prop := b.mean ≤ a.mean

instance : DecidableRel meanGE := fun a b => inferInstanceAs (Decidable (b.mean ≤ a.mean))

instance : IsTotal GroupRow meanGE := ⟨fun a b => (le_total b.mean a.mean).imp id id⟩

instance : IsTrans GroupRow meanGE := ⟨fun _ _ _ h1 h2 => le_trans h2 h1⟩

/-- Descending order on group counts, the sort key of value_counts. -/
def countGE (a b : VolRow) : Prop := b.count ≤ a.count

instance : DecidableRel countGE := fun a b => inferInstanceAs (Decidable (b.count ≤ a.count))

instance : IsTotal VolRow countGE := ⟨fun a b => (le_total b.count a.count).imp id id⟩

instance : IsTrans VolRow countGE := ⟨fun _ _ _ h1 h2 => le_trans h2 h1⟩

/-- The rows of df whose satisfaction rating is not null
(df[df["Customer Satisfaction Rating"].notna()]). -/
def validSatRows (df : Table) : List Row :=
  df.rows.filter (fun r => decide (getCell r "Customer Satisfaction Rating" ≠ Cell.null))

/-- The agg(["mean", "count"]) record of one satisfaction group: the mean
rating over the group's rows and the group size. -/
def satGroupRow (g : Cell × List Row) : GroupRow :=
  { key := g.1,
    mean := (g.2.map (fun r => cellRat (getCell r "Customer Satisfaction Rating"))).sum
              / (g.2.length : Rat),
    count := g.2.length }

/-- get_satisfaction_by_group from src/utils.py: keep rows with a non-null
rating, return an empty frame early when none remain, otherwise group by
the column (KeyError when absent), aggregate mean and count, and sort
descending by mean. -/
def get_satisfaction_by_group (df : Table) (c : String) : Option (List GroupRow) :=
  if "Customer Satisfaction Rating" ∈ df.cols then
    let valid := validSatRows df
    if valid.isEmpty then some []
    else if c ∈ df.cols then
      some (List.insertionSort meanGE ((groupByKey (fun r => getCell r c) valid).map satGroupRow))
    else none
  else none

/-- One row of a value_counts result: group key and group size. -/
def volGroupRow (g : Cell × List Row) : VolRow := { key := g.1, count := g.2.length }

/-- get_volume_by_group from src/utils.py: value_counts(dropna=False),
i.e. group every row by the raw cell value (null included) and sort the
group sizes descending; KeyError (none) when the column is absent. -/
def get_volume_by_group (df : Table) (c : String) : Option (List VolRow) :=
  if c ∈ df.cols then
    some (List.insertionSort countGE
      ((groupByKey (fun r => getCell r c) df.rows).map volGroupRow))
  else none

/-! Basic lemmas about rows and column maps. -/

theorem getCell_setCell (r : Row) (c c' : String) (v : Cell) :
    getCell (setCell r c v) c' = if c = c' then v else getCell r c' := by
  induction r with
  | nil => simp [setCell, getCell]
  | cons p r ih =>
    obtain ⟨k, w⟩ := p
    by_cases hk : k = c
    · subst hk
      by_cases hc : k = c' <;> simp [setCell, getCell, hc]
    · by_cases hc : c = c' <;> by_cases hkc : k = c' <;>
        simp_all [setCell, getCell]

theorem mapCol_rows (t : Table) (c : String) (f : Row → Cell) :
    (mapCol t c f).rows = t.rows.map (fun r => setCell r c (f r)) := rfl

theorem mapCol_cols (t : Table) (c : String) (f : Row → Cell) :
    (mapCol t c f).cols = if c ∈ t.cols then t.cols else t.cols ++ [c] := rfl

/-- The per-row effect of clean_data when the satisfaction, resolution and
first-response columns are all present; dop records whether the purchase
date column is present. -/
def cleanRow (dop : Bool) (r : Row) : Row :=
  let r1 := setCell r "Customer Satisfaction Rating"
    (toNumeric (getCell r "Customer Satisfaction Rating"))
  let r2 := if dop then
      setCell r1 "Date of Purchase" (toDatetime (getCell r1 "Date of Purchase"))
    else r1
  let r3 := setCell r2 "First Response Time" (toDatetime (getCell r2 "First Response Time"))
  let r4 := setCell r3 "Time to Resolution Timestamp" (toDatetime (getCell r3 "Time to Resolution"))
  let r5 := setCell r4 "Time to Resolution"
    (diffHours (getCell r4 "Time to Resolution Timestamp") (getCell r4 "First Response Time"))
  setCell r5 "Time to Resolution" (guardPos (getCell r5 "Time to Resolution"))

theorem clean_data_eq (df : Table) (hCSR : "Customer Satisfaction Rating" ∈ df.cols)
    (hTTR : "Time to Resolution" ∈ df.cols) (hFRT : "First Response Time" ∈ df.cols) :
    clean_data df = some
      { cols := if "Time to Resolution Timestamp" ∈ df.cols then df.cols
                else df.cols ++ ["Time to Resolution Timestamp"],
        rows := df.rows.map (cleanRow (decide ("Date of Purchase" ∈ df.cols))) } := by
  by_cases hdop : "Date of Purchase" ∈ df.cols <;>
  by_cases hTT : "Time to Resolution Timestamp" ∈ df.cols <;>
  simp [clean_data, coerceSatisfaction, parsePurchaseDate, parseFirstResponse,
        deriveResolution, mapCol, hCSR, hTTR, hFRT, hdop, hTT, cleanRow,
        List.map_map, Function.comp]

theorem cleanRow_TTR (dop : Bool) (r : Row) :
    getCell (cleanRow dop r) "Time to Resolution" =
      guardPos (diffHours (toDatetime (getCell r "Time to Resolution"))
                          (toDatetime (getCell r "First Response Time"))) := by
  cases dop <;> simp [cleanRow, getCell_setCell]

theorem cleanRow_TTRT (dop : Bool) (r : Row) :
    getCell (cleanRow dop r) "Time to Resolution Timestamp" =
      toDatetime (getCell r "Time to Resolution") := by
  cases dop <;> simp [cleanRow, getCell_setCell]

theorem guardPos_diffHours_cases (x y : Cell) :
    guardPos (diffHours x y) = Cell.null ∨
      ∃ q : Rat, 0 < q ∧ guardPos (diffHours x y) = Cell.num q := by
  cases x <;> cases y <;> try (left; rfl)
  case time.time a b =>
    by_cases h : ((a - b : Int) : Rat) / 3600 ≤ 0
    · left
      show (if ((a - b : Int) : Rat) / 3600 ≤ 0 then Cell.null
            else Cell.num (((a - b : Int) : Rat) / 3600)) = Cell.null
      rw [if_pos h]
    · right
      refine ⟨((a - b : Int) : Rat) / 3600, lt_of_not_le h, ?_⟩
      show (if ((a - b : Int) : Rat) / 3600 ≤ 0 then Cell.null
            else Cell.num (((a - b : Int) : Rat) / 3600)) =
          Cell.num (((a - b : Int) : Rat) / 3600)
      rw [if_neg h]

theorem diffHours_null_right (x : Cell) : diffHours x Cell.null = Cell.null := by
  cases x <;> rfl

theorem clean_data_some_csr {df out : Table} (hc : clean_data df = some out) :
    "Customer Satisfaction Rating" ∈ df.cols := by
  by_contra h
  simp [clean_data, h] at hc

/-- C1: for every row with both a parseable resolution timestamp and a
parseable first-response timestamp, the derived resolution duration is
their difference in fractional hours when strictly positive and null when
the difference is non-positive; and for every row whose first-response
value is absent or unparseable, the derived duration is null. -/
theorem claim_C1 (df out : Table)
    (hTTR : "Time to Resolution" ∈ df.cols) (hFRT : "First Response Time" ∈ df.cols)
    (hc : clean_data df = some out) (i : Nat) (hi : i < df.rows.length) :
    ∃ hi' : i < out.rows.length,
      (∀ a b : Int,
        getCell (df.rows.get ⟨i, hi⟩) "Time to Resolution" = Cell.time a →
        getCell (df.rows.get ⟨i, hi⟩) "First Response Time" = Cell.time b →
        (b < a → getCell (out.rows.get ⟨i, hi'⟩) "Time to Resolution"
            = Cell.num (((a - b : Int) : Rat) / 3600)) ∧
        (a ≤ b → getCell (out.rows.get ⟨i, hi'⟩) "Time to Resolution" = Cell.null)) ∧
      (toDatetime (getCell (df.rows.get ⟨i, hi⟩) "First Response Time") = Cell.null →
        getCell (out.rows.get ⟨i, hi'⟩) "Time to Resolution" = Cell.null) := by
  have hCSR := clean_data_some_csr hc
  have he := clean_data_eq df hCSR hTTR hFRT
  rw [hc] at he
  obtain rfl := (Option.some.inj he).symm
  have hi' : i < (df.rows.map (cleanRow (decide ("Date of Purchase" ∈ df.cols)))).length := by
    simpa using hi
  refine ⟨hi', ?_, ?_⟩
  · intro a b ha hb
    have hrow : getCell ((df.rows.map (cleanRow (decide ("Date of Purchase" ∈ df.cols)))).get
        ⟨i, hi'⟩) "Time to Resolution" =
        guardPos (diffHours (toDatetime (getCell (df.rows.get ⟨i, hi⟩) "Time to Resolution"))
          (toDatetime (getCell (df.rows.get ⟨i, hi⟩) "First Response Time"))) := by
      simp [List.get_eq_getElem, List.getElem_map, cleanRow_TTR]
    rw [ha, hb] at hrow
    constructor
    · intro hba
      have hpos : 0 < ((a - b : Int) : Rat) / 3600 := by
        apply div_pos _ (by norm_num)
        exact_mod_cast Int.sub_pos.mpr hba
      rw [hrow]
      show (if ((a - b : Int) : Rat) / 3600 ≤ 0 then Cell.null
            else Cell.num (((a - b : Int) : Rat) / 3600)) = _
      rw [if_neg (not_le.mpr hpos)]
    · intro hab
      have hnp : ((a - b : Int) : Rat) / 3600 ≤ 0 := by
        apply div_nonpos_of_nonpos_of_nonneg _ (by norm_num)
        exact_mod_cast sub_nonpos.mpr hab
      rw [hrow]
      show (if ((a - b : Int) : Rat) / 3600 ≤ 0 then Cell.null
            else Cell.num (((a - b : Int) : Rat) / 3600)) = _
      rw [if_pos hnp]
  · intro hn
    have hrow : getCell ((df.rows.map (cleanRow (decide ("Date of Purchase" ∈ df.cols)))).get
        ⟨i, hi'⟩) "Time to Resolution" =
        guardPos (diffHours (toDatetime (getCell (df.rows.get ⟨i, hi⟩) "Time to Resolution"))
          (toDatetime (getCell (df.rows.get ⟨i, hi⟩) "First Response Time"))) := by
      simp [List.get_eq_getElem, List.getElem_map, cleanRow_TTR]
    rw [hn, diffHours_null_right] at hrow
    exact hrow

/-- C4: in the cleaned table, every row's derived resolution duration is
either null or a strictly positive number of hours; no zero or negative
duration is retained. -/
theorem claim_C4 (df out : Table)
    (hTTR : "Time to Resolution" ∈ df.cols) (hFRT : "First Response Time" ∈ df.cols)
    (hc : clean_data df = some out) (r : Row) (hr : r ∈ out.rows) :
    getCell r "Time to Resolution" = Cell.null ∨
      ∃ q : Rat, 0 < q ∧ getCell r "Time to Resolution" = Cell.num q := by
  have hCSR := clean_data_some_csr hc
  have he := clean_data_eq df hCSR hTTR hFRT
  rw [hc] at he
  obtain rfl := (Option.some.inj he).symm
  obtain ⟨r0, _, rfl⟩ := List.mem_map.mp hr
  rw [cleanRow_TTR]
  exact guardPos_diffHours_cases _ _

/-- C10: on inputs carrying both raw timestamp columns, clean_data appends
exactly one new column "Time to Resolution Timestamp" holding the parsed
raw resolution timestamp, overwrites "Time to Resolution" with the derived
(guarded) duration so that no timestamp remains under that name, and keeps
every other column name unchanged. -/
theorem claim_C10 (df out : Table)
    (hTTR : "Time to Resolution" ∈ df.cols) (hFRT : "First Response Time" ∈ df.cols)
    (hTT : "Time to Resolution Timestamp" ∉ df.cols) (hc : clean_data df = some out) :
    out.cols = df.cols ++ ["Time to Resolution Timestamp"] ∧
    ∀ i (hi : i < df.rows.length), ∃ hi' : i < out.rows.length,
      getCell (out.rows.get ⟨i, hi'⟩) "Time to Resolution Timestamp"
        = toDatetime (getCell (df.rows.get ⟨i, hi⟩) "Time to Resolution") ∧
      getCell (out.rows.get ⟨i, hi'⟩) "Time to Resolution"
        = guardPos (diffHours (toDatetime (getCell (df.rows.get ⟨i, hi⟩) "Time to Resolution"))
            (toDatetime (getCell (df.rows.get ⟨i, hi⟩) "First Response Time"))) ∧
      ∀ t : Int, getCell (out.rows.get ⟨i, hi'⟩) "Time to Resolution" ≠ Cell.time t := by
  have hCSR := clean_data_some_csr hc
  have he := clean_data_eq df hCSR hTTR hFRT
  rw [hc] at he
  obtain rfl := (Option.some.inj he).symm
  refine ⟨by simp [hTT], ?_⟩
  intro i hi
  have hi' : i < (df.rows.map (cleanRow (decide ("Date of Purchase" ∈ df.cols)))).length := by
    simpa using hi
  refine ⟨hi', ?_, ?_, ?_⟩
  · simp [List.get_eq_getElem, List.getElem_map, cleanRow_TTRT]
  · simp [List.get_eq_getElem, List.getElem_map, cleanRow_TTR]
  · intro t
    have hrow : getCell ((df.rows.map (cleanRow (decide ("Date of Purchase" ∈ df.cols)))).get
        ⟨i, hi'⟩) "Time to Resolution" =
        guardPos (diffHours (toDatetime (getCell (df.rows.get ⟨i, hi⟩) "Time to Resolution"))
          (toDatetime (getCell (df.rows.get ⟨i, hi⟩) "First Response Time"))) := by
      simp [List.get_eq_getElem, List.getElem_map, cleanRow_TTR]
    rw [hrow]
    rcases guardPos_diffHours_cases
        (toDatetime (getCell (df.rows.get ⟨i, hi⟩) "Time to Resolution"))
        (toDatetime (getCell (df.rows.get ⟨i, hi⟩) "First Response Time")) with h | ⟨q, _, h⟩ <;>
      rw [h] <;> simp

/-- A one-row table: rating 4, first response at second 0, resolution at
second 9000 (2.5 hours later). -/
def dfW1 : Table :=
  { cols := ["Customer Satisfaction Rating", "First Response Time", "Time to Resolution"],
    rows := [[("Customer Satisfaction Rating", Cell.num 4),
              ("First Response Time", Cell.time 0),
              ("Time to Resolution", Cell.time 9000)]] }

/-- The cleaned form of dfW1. -/
def cleanW1 : Table := (clean_data dfW1).getD { cols := [], rows := [] }

theorem claim_C1_witness :
    getCell (cleanW1.rows.get ⟨0, by decide⟩) "Time to Resolution" = Cell.num (5 / 2) := by
  obtain ⟨hi', h1, h2⟩ := claim_C1 dfW1 cleanW1 (by decide) (by decide) rfl 0 (by decide)
  have h := (h1 9000 0 (by decide) (by decide)).1 (by decide)
  exact h.trans (congrArg Cell.num (by norm_num))

theorem claim_C4_witness :
    getCell (cleanW1.rows.get ⟨0, by decide⟩) "Time to Resolution" = Cell.null ∨
      ∃ q : Rat, 0 < q ∧
        getCell (cleanW1.rows.get ⟨0, by decide⟩) "Time to Resolution" = Cell.num q :=
  claim_C4 dfW1 cleanW1 (by decide) (by decide) rfl
    (cleanW1.rows.get ⟨0, by decide⟩) (List.get_mem _ _ _)

theorem claim_C10_witness :
    cleanW1.cols = dfW1.cols ++ ["Time to Resolution Timestamp"] ∧
    getCell (cleanW1.rows.get ⟨0, by decide⟩) "Time to Resolution Timestamp" = Cell.time 9000 := by
  obtain ⟨hcols, hrows⟩ := claim_C10 dfW1 cleanW1 (by decide) (by decide) (by decide) rfl
  obtain ⟨hi', h1, h2, h3⟩ := hrows 0 (by decide)
  exact ⟨hcols, h1.trans (by decide)⟩

/-- A table with no "Customer Satisfaction Rating" column. -/
def dfNoCSR : Table := { cols := ["Ticket ID"], rows := [[("Ticket ID", Cell.str "T1")]] }

/-- C2 as stated is false: clean_data raises (none) on a table lacking the
satisfaction-rating column, because the coercion step reads that column
without a presence guard. -/
theorem claim_C2_counterexample : clean_data dfNoCSR = none := rfl

/-- C2 amended: every cleaning step other than the satisfaction-rating
coercion tolerates a missing source column: whenever the
"Customer Satisfaction Rating" column is present, clean_data never raises,
whatever other columns the table lacks. -/
theorem claim_C2_amend (df : Table) (h : "Customer Satisfaction Rating" ∈ df.cols) :
    (clean_data df).isSome = true := by
  simp [clean_data, h]

theorem claim_C2_amend_witness :
    "Customer Satisfaction Rating" ∈ dfW1.cols ∧ (clean_data dfW1).isSome = true :=
  ⟨by decide, claim_C2_amend dfW1 (by decide)⟩

/-- A table with no "Ticket Priority" column. -/
def dfNoPrio : Table := { cols := ["Ticket ID"], rows := [[("Ticket ID", Cell.str "T1")]] }

/-- A filter selection with an active priority allow-list only. -/
def fsPrio : FilterSpec := { priorities := some ["High"] }

/-- C3 as stated is false: with an active priority allow-list and no
"Ticket Priority" column, filter_data raises KeyError (none) instead of
skipping that dimension. -/
theorem claim_C3_counterexample : filter_data dfNoPrio fsPrio = none := rfl

theorem catFilter_isSome (t : Table) (col : String) (l : Option (List String))
    (h : listActive l = true → col ∈ t.cols) :
    ∃ t', catFilter t col l = some t' ∧ t'.cols = t.cols := by
  match l with
  | none => exact ⟨t, rfl, rfl⟩
  | some [] => exact ⟨t, rfl, rfl⟩
  | some (v :: vs) =>
    have hcol : col ∈ t.cols := h rfl
    refine ⟨{ t with rows := t.rows.filter (fun r => isinList (getCell r col) (v :: vs)) },
      ?_, rfl⟩
    simp [catFilter, hcol]

/-- C3 amended: only the date dimension is skipped when its column is
absent; an active categorical allow-list whose column is absent raises,
and filter_data never raises provided every active categorical
dimension's column is present. -/
theorem claim_C3_amend (df : Table) (fs : FilterSpec) :
    ((listActive fs.priorities = true → "Ticket Priority" ∈ df.cols) →
     (listActive fs.channels = true → "Ticket Channel" ∈ df.cols) →
     (listActive fs.statuses = true → "Ticket Status" ∈ df.cols) →
     (listActive fs.products = true → "Product Purchased" ∈ df.cols) →
     (filter_data df fs).isSome = true) ∧
    ("Date of Purchase" ∉ df.cols →
      filter_data df fs = filter_data df { fs with date_range := none }) := by
  constructor
  · intro hp hc hs hpr
    have ht0 : ∃ t0 : Table, t0.cols = df.cols ∧ filter_data df fs =
        (catFilter t0 "Ticket Priority" fs.priorities).bind (fun t1 =>
        (catFilter t1 "Ticket Channel" fs.channels).bind (fun t2 =>
        (catFilter t2 "Ticket Status" fs.statuses).bind (fun t3 =>
        catFilter t3 "Product Purchased" fs.products))) := by
      cases hdr : fs.date_range with
      | none => exact ⟨df, rfl, by simp [filter_data, hdr]⟩
      | some p =>
        obtain ⟨s, e⟩ := p
        by_cases hd : "Date of Purchase" ∈ df.cols
        · refine ⟨{ df with
              rows := df.rows.filter (fun r => dateInRange (getCell r "Date of Purchase") s e) },
            rfl, ?_⟩
          simp [filter_data, hdr, hd]
        · exact ⟨df, rfl, by simp [filter_data, hdr, hd]⟩
    obtain ⟨t0, hcols0, heq⟩ := ht0
    obtain ⟨t1, h1, c1⟩ := catFilter_isSome t0 _ fs.priorities
      (fun ha => by rw [hcols0]; exact hp ha)
    obtain ⟨t2, h2, c2⟩ := catFilter_isSome t1 _ fs.channels
      (fun ha => by rw [c1, hcols0]; exact hc ha)
    obtain ⟨t3, h3, c3⟩ := catFilter_isSome t2 _ fs.statuses
      (fun ha => by rw [c2, c1, hcols0]; exact hs ha)
    obtain ⟨t4, h4, c4⟩ := catFilter_isSome t3 _ fs.products
      (fun ha => by rw [c3, c2, c1, hcols0]; exact hpr ha)
    rw [heq]
    simp [h1, h2, h3, h4]
  · intro hd
    cases hdr : fs.date_range with
    | none => simp [filter_data, hdr]
    | some p =>
      obtain ⟨s, e⟩ := p
      simp [filter_data, hdr, hd]

/-- A one-row table carrying the four categorical columns. -/
def dfCats : Table :=
  { cols := ["Ticket Priority", "Ticket Channel", "Ticket Status", "Product Purchased"],
    rows := [[("Ticket Priority", Cell.str "High"), ("Ticket Channel", Cell.str "Email"),
              ("Ticket Status", Cell.str "Open"), ("Product Purchased", Cell.str "Phone")]] }

theorem claim_C3_amend_witness :
    (filter_data dfCats fsPrio).isSome = true ∧
    filter_data dfNoPrio { } = filter_data dfNoPrio { date_range := none } := by
  constructor
  · exact (claim_C3_amend dfCats fsPrio).1 (fun _ => by decide) (fun _ => by decide)
      (fun _ => by decide) (fun _ => by decide)
  · exact (claim_C3_amend dfNoPrio { }).2 (by decide)

/-- C5: with no date range and every allow-list empty or omitted,
filter_data returns its input unchanged, row for row. -/
theorem claim_C5 (df : Table) (fs : FilterSpec)
    (hd : fs.date_range = none)
    (hp : fs.priorities = none ∨ fs.priorities = some [])
    (hc : fs.channels = none ∨ fs.channels = some [])
    (hs : fs.statuses = none ∨ fs.statuses = some [])
    (hpr : fs.products = none ∨ fs.products = some []) :
    filter_data df fs = some df := by
  rcases hp with hp | hp <;> rcases hc with hc | hc <;> rcases hs with hs | hs <;>
    rcases hpr with hpr | hpr <;>
    simp [filter_data, catFilter, hd, hp, hc, hs, hpr]

theorem claim_C5_witness : filter_data dfW1 { priorities := some [] } = some dfW1 :=
  claim_C5 dfW1 { priorities := some [] } rfl (Or.inr rfl) (Or.inl rfl) (Or.inl rfl) (Or.inl rfl)

/-- The table kept by an active date filter: exactly the rows whose
purchase date lies in the inclusive range. -/
def dateFiltered (df : Table) (s e : Int) : Table :=
  { df with rows := df.rows.filter (fun r => dateInRange (getCell r "Date of Purchase") s e) }

/-- C6: the date filter applies only when the purchase-date column exists
and a (start, end) pair is supplied; when active it keeps exactly the rows
whose purchase date is a timestamp between start and end inclusive, so
null purchase dates are dropped; when inactive the date dimension imposes
nothing. -/
theorem claim_C6 (df : Table) (fs : FilterSpec) (s e : Int) :
    (fs.date_range = some (s, e) → "Date of Purchase" ∈ df.cols →
      filter_data df fs =
        filter_data (dateFiltered df s e) { fs with date_range := none }) ∧
    (∀ c : Cell, dateInRange c s e = true ↔ ∃ t : Int, c = Cell.time t ∧ s ≤ t ∧ t ≤ e) ∧
    dateInRange Cell.null s e = false ∧
    (fs.date_range = none ∨ "Date of Purchase" ∉ df.cols →
      filter_data df fs = filter_data df { fs with date_range := none }) := by
  refine ⟨?_, ?_, rfl, ?_⟩
  · intro hdr hd
    simp [filter_data, dateFiltered, hdr, hd]
  · intro c
    cases c <;> simp [dateInRange]
  · intro h
    rcases h with h | h
    · simp [filter_data, h]
    · cases hdr : fs.date_range with
      | none => simp [filter_data, hdr]
      | some p =>
        obtain ⟨s', e'⟩ := p
        simp [filter_data, hdr, h]

/-- A two-row table with one timestamped and one null purchase date. -/
def dfDate : Table :=
  { cols := ["Date of Purchase"],
    rows := [[("Date of Purchase", Cell.time 50)], [("Date of Purchase", Cell.null)]] }

/-- A filter selection with only a date range, from 0 to 100. -/
def fsDate : FilterSpec := { date_range := some (0, 100) }

theorem claim_C6_witness :
    (filter_data dfDate fsDate =
      filter_data (dateFiltered dfDate 0 100) { fsDate with date_range := none }) ∧
    dateInRange Cell.null 0 100 = false ∧
    dateInRange (Cell.time 50) 0 100 = true := by
  obtain ⟨h1, h2, h3, h4⟩ := claim_C6 dfDate fsDate 0 100
  exact ⟨h1 rfl (by decide), h3, (h2 (Cell.time 50)).mpr ⟨50, rfl, by decide, by decide⟩⟩

theorem statusCount_eq (t : Table) (s : String) :
    statusCount t s = (t.rows.filter (isStatus s)).length := by
  unfold statusCount
  by_cases h : t.rows.any (isStatus s)
  · simp [h]
  · have hnil : t.rows.filter (isStatus s) = [] := by
      rw [List.filter_eq_nil_iff]
      intro a ha hpa
      exact h (List.any_eq_true.mpr ⟨a, ha, hpa⟩)
    simp [h, hnil]

/-- C7: on a table with the three needed columns but zero rows,
calculate_kpis returns total 0, null averages and zero open and closed
counts without raising; and in general the open and closed counts are the
numbers of rows whose status cell equals the exact strings "Open" and
"Closed". -/
theorem claim_C7 (df : Table)
    (h1 : "Customer Satisfaction Rating" ∈ df.cols) (h2 : "Time to Resolution" ∈ df.cols)
    (h3 : "Ticket Status" ∈ df.cols) :
    (df.rows = [] → calculate_kpis df =
      some { total_tickets := 0, avg_satisfaction := none, avg_resolution_time := none,
             open_tickets := 0, closed_tickets := 0 }) ∧
    ∀ k, calculate_kpis df = some k →
      k.open_tickets = (df.rows.filter (isStatus "Open")).length ∧
      k.closed_tickets = (df.rows.filter (isStatus "Closed")).length := by
  constructor
  · intro hrows
    simp [calculate_kpis, h1, h2, h3, hrows, meanCol, statusCount]
  · intro k hk
    simp [calculate_kpis, h1, h2, h3] at hk
    rw [← hk]
    simp [statusCount_eq]

/-- An empty table carrying the three KPI columns. -/
def dfEmpty : Table :=
  { cols := ["Customer Satisfaction Rating", "Time to Resolution", "Ticket Status"], rows := [] }

theorem claim_C7_witness :
    calculate_kpis dfEmpty =
      some { total_tickets := 0, avg_satisfaction := none, avg_resolution_time := none,
             open_tickets := 0, closed_tickets := 0 } :=
  (claim_C7 dfEmpty (by decide) (by decide) (by decide)).1 rfl

/-! Lemmas about grouping: the group sizes of a partition sum to the
length of the partitioned list, and group keys never repeat. -/

theorem insertGroup_length_sum (k : Cell) (a : α) (gs : List (Cell × List α)) :
    ((insertGroup k a gs).map (fun g => g.2.length)).sum =
      (gs.map (fun g => g.2.length)).sum + 1 := by
  induction gs with
  | nil => simp [insertGroup]
  | cons g gs ih =>
    obtain ⟨k', as⟩ := g
    by_cases h : k' = k
    · simp [insertGroup, h]
      omega
    · simp [insertGroup, h, ih]
      omega

theorem groupByKey_length_sum (f : α → Cell) (l : List α) :
    ((groupByKey f l).map (fun g => g.2.length)).sum = l.length := by
  induction l with
  | nil => rfl
  | cons a as ih => simp [groupByKey, insertGroup_length_sum, ih]

theorem insertGroup_keys (k : Cell) (a : α) (gs : List (Cell × List α)) :
    (insertGroup k a gs).map Prod.fst =
      if k ∈ gs.map Prod.fst then gs.map Prod.fst else gs.map Prod.fst ++ [k] := by
  induction gs with
  | nil => simp [insertGroup]
  | cons g gs ih =>
    obtain ⟨k', as⟩ := g
    by_cases h : k' = k
    · simp [insertGroup, h]
    · by_cases hm : k ∈ gs.map Prod.fst <;>
        simp [insertGroup, h, ih, hm, Ne.symm h]

theorem groupByKey_keys_nodup (f : α → Cell) (l : List α) :
    ((groupByKey f l).map Prod.fst).Nodup := by
  induction l with
  | nil => simp [groupByKey]
  | cons a as ih =>
    rw [groupByKey, insertGroup_keys]
    by_cases hm : f a ∈ (groupByKey f as).map Prod.fst
    · simpa [hm] using ih
    · simp [hm, List.nodup_append, ih]

/-- C8: whenever get_satisfaction_by_group returns a result, the result is
sorted descending by mean, its per-group counts sum to the number of rows
with a non-null satisfaction rating, and no group key repeats; and on an
input with no such rows (the rating column being present) it returns the
empty result rather than raising. -/
theorem claim_C8 (df : Table) (c : String) :
    (∀ res, get_satisfaction_by_group df c = some res →
      List.Sorted meanGE res ∧
      (res.map GroupRow.count).sum = (validSatRows df).length ∧
      (res.map GroupRow.key).Nodup) ∧
    ("Customer Satisfaction Rating" ∈ df.cols → validSatRows df = [] →
      get_satisfaction_by_group df c = some []) := by
  constructor
  · intro res hres
    by_cases h1 : "Customer Satisfaction Rating" ∈ df.cols
    · by_cases h2 : validSatRows df = []
      · simp [get_satisfaction_by_group, h1, h2] at hres
        subst hres
        simp [h2]
      · by_cases h3 : c ∈ df.cols
        · have h2' : (validSatRows df).isEmpty = false := by
            simpa [List.isEmpty_iff] using h2
          simp [get_satisfaction_by_group, h1, h2', h3] at hres
          subst hres
          refine ⟨List.sorted_insertionSort meanGE _, ?_, ?_⟩
          · have hperm := (List.perm_insertionSort meanGE
              ((groupByKey (fun r => getCell r c) (validSatRows df)).map satGroupRow)).map
                GroupRow.count
            rw [hperm.sum_eq, List.map_map]
            have hsum : ((groupByKey (fun r => getCell r c) (validSatRows df)).map
                (fun g => g.2.length)).sum = (validSatRows df).length :=
              groupByKey_length_sum _ _
            simpa [Function.comp, satGroupRow] using hsum
          · have hperm := (List.perm_insertionSort meanGE
              ((groupByKey (fun r => getCell r c) (validSatRows df)).map satGroupRow)).map
                GroupRow.key
            rw [hperm.nodup_iff, List.map_map]
            have hnd := groupByKey_keys_nodup (fun r => getCell r c) (validSatRows df)
            simpa [Function.comp, satGroupRow] using hnd
        · have h2' : (validSatRows df).isEmpty = false := by
            simpa [List.isEmpty_iff] using h2
          simp [get_satisfaction_by_group, h1, h2', h3] at hres
    · simp [get_satisfaction_by_group, h1] at hres
  · intro h1 hv
    simp [get_satisfaction_by_group, h1, hv]

/-- C9: whenever get_volume_by_group returns a result, the result is
sorted descending by count, no group key repeats, and the per-group counts
sum to exactly the number of input rows (so null keys group rather than
drop rows); it returns a result whenever the column exists. -/
theorem claim_C9 (df : Table) (c : String) :
    (∀ res, get_volume_by_group df c = some res →
      List.Sorted countGE res ∧
      (res.map VolRow.count).sum = df.rows.length ∧
      (res.map VolRow.key).Nodup) ∧
    (c ∈ df.cols → (get_volume_by_group df c).isSome = true) := by
  constructor
  · intro res hres
    by_cases h : c ∈ df.cols
    · simp [get_volume_by_group, h] at hres
      subst hres
      refine ⟨List.sorted_insertionSort countGE _, ?_, ?_⟩
      · have hperm := (List.perm_insertionSort countGE
          ((groupByKey (fun r => getCell r c) df.rows).map volGroupRow)).map VolRow.count
        rw [hperm.sum_eq, List.map_map]
        have hsum : ((groupByKey (fun r => getCell r c) df.rows).map
            (fun g => g.2.length)).sum = df.rows.length :=
          groupByKey_length_sum _ _
        simpa [Function.comp, volGroupRow] using hsum
      · have hperm := (List.perm_insertionSort countGE
          ((groupByKey (fun r => getCell r c) df.rows).map volGroupRow)).map VolRow.key
        rw [hperm.nodup_iff, List.map_map]
        have hnd := groupByKey_keys_nodup (fun r => getCell r c) df.rows
        simpa [Function.comp, volGroupRow] using hnd
    · simp [get_volume_by_group, h] at hres
  · intro h
    simp [get_volume_by_group, h]

/-- The spec's worked example: satisfaction 5 and 3 on High priority,
4 on Low. -/
def dfG : Table :=
  { cols := ["Customer Satisfaction Rating", "Ticket Priority"],
    rows := [[("Customer Satisfaction Rating", Cell.num 5), ("Ticket Priority", Cell.str "High")],
             [("Customer Satisfaction Rating", Cell.num 3), ("Ticket Priority", Cell.str "High")],
             [("Customer Satisfaction Rating", Cell.num 4), ("Ticket Priority", Cell.str "Low")]] }

theorem claim_C8_witness :
    List.Sorted meanGE ((get_satisfaction_by_group dfG "Ticket Priority").getD []) ∧
    (((get_satisfaction_by_group dfG "Ticket Priority").getD []).map GroupRow.count).sum
      = (validSatRows dfG).length ∧
    (((get_satisfaction_by_group dfG "Ticket Priority").getD []).map GroupRow.key).Nodup :=
  (claim_C8 dfG "Ticket Priority").1 _ rfl

theorem claim_C9_witness :
    List.Sorted countGE ((get_volume_by_group dfG "Ticket Priority").getD []) ∧
    (((get_volume_by_group dfG "Ticket Priority").getD []).map VolRow.count).sum
      = dfG.rows.length ∧
    (((get_volume_by_group dfG "Ticket Priority").getD []).map VolRow.key).Nodup :=
  (claim_C9 dfG "Ticket Priority").1 _ rfl

end CSA
